import Mathlib

/-!
OrbitIQ — verification of the collision, propulsion and thermal engines.

Shallow embedding of the three pure computation engines of the OrbitIQ
repository:

* the collision-risk engine (`calculateCollisionProbability`,
  `detectCollisionRisks`, `calculateRiskScore`);
* the propulsion / mission-lifetime engine (`calculateDeltaV`,
  `calculatePropellantRequired`, `calculateMissionLifetimeState`);
* the thermal simulation engine (`runThermalSimulation`).

JavaScript numbers are modelled by `ℚ` where the code is algebraic and fully
executable, and by `ℝ` where the code calls the transcendental functions
`Math.log` / `Math.exp`.  The `Infinity` sentinel returned by the rocket
equation is modelled by `none` in an `Option` result.  JavaScript division is
total; so is division on `ℚ`/`ℝ` (with `x / 0 = 0` instead of `NaN`/infinity),
and every place where this matters is noted next to the definition.
-/

namespace OrbitIQ

/-! ## Collision engine (`orbitalCalculations`, src/unnamed/part_000)

`Math.sqrt` is used by the source only to form the Euclidean distance and the
relative speed, and both quantities are then consumed monotonically
(threshold comparisons `distance < c` with `c ≥ 0`, and the ratio
`distance / max(relativeSpeed, 0.1)`).  The embedding therefore carries the
squares of these quantities: `sqrt s < c ↔ s < c²` for `c ≥ 0`, and
`(d / max(r, 0.1))² = d² / max(r², 0.01)` for `d, r ≥ 0`.  The threshold
constants of the source (5, 25, 100, 500 km) appear squared
(25, 625, 10000, 250000) in the squared-carrier variant, and
`collisionProbability` states the source mapping directly on the distance. -/

/-- Position and velocity of one tracked object (source interface
`SatellitePosition`); coordinates are in Earth radii, velocities in km/s. -/
structure SatellitePosition where
  name : String
  position : ℚ × ℚ × ℚ
  velocity : ℚ × ℚ × ℚ
  deriving DecidableEq

/-- One detected close approach (source interface `CollisionRisk`); the
`distance` and `timeToClosestApproach` fields are carried squared. -/
structure CollisionRisk where
  sat1 : String
  sat2 : String
  distanceSq : ℚ
  probability : ℚ
  timeToClosestApproachSq : ℚ
  deriving DecidableEq

/-- Square of the separation in km computed by `calculateCollisionProbability`:
each coordinate difference is scaled by the Earth radius (6371 km) and the
source then takes `Math.sqrt` of this sum of squares. -/
def distanceSq (pos1 pos2 : ℚ × ℚ × ℚ) : ℚ :=
  let dx := (pos1.1 - pos2.1) * 6371
  let dy := (pos1.2.1 - pos2.2.1) * 6371
  let dz := (pos1.2.2 - pos2.2.2) * 6371
  dx * dx + dy * dy + dz * dz

/-- Square of the relative speed computed by `calculateCollisionProbability`. -/
def relativeSpeedSq (vel1 vel2 : ℚ × ℚ × ℚ) : ℚ :=
  let dvx := vel1.1 - vel2.1
  let dvy := vel1.2.1 - vel2.2.1
  let dvz := vel1.2.2 - vel2.2.2
  dvx * dvx + dvy * dvy + dvz * dvz

/-- The distance-threshold probability ladder of
`calculateCollisionProbability`, stated on the distance itself (the value the
source obtains from `Math.sqrt`). -/
def collisionProbability (distance : ℚ) : ℚ :=
  if distance < 5 then 0.85
  else if distance < 25 then 0.45
  else if distance < 100 then 0.15
  else if distance < 500 then 0.02
  else 0

/-- The same probability ladder on the squared distance (thresholds squared,
see the module comment). -/
def collisionProbabilityOfSq (dsq : ℚ) : ℚ :=
  if dsq < 25 then 0.85
  else if dsq < 625 then 0.45
  else if dsq < 10000 then 0.15
  else if dsq < 250000 then 0.02
  else 0

/-- Result record of `calculateCollisionProbability` (distance and time to
closest approach carried squared). -/
structure CollisionResult where
  distanceSq : ℚ
  probability : ℚ
  timeToClosestSq : ℚ
  deriving DecidableEq

/-- Source function `calculateCollisionProbability`.  The source computes
`timeToClosest = distance / Math.max(relativeSpeed, 0.1)`; squaring both sides
gives `distanceSq / max(relativeSpeedSq, 0.01)` since both operands are
nonnegative. -/
def calculateCollisionProbability (pos1 vel1 pos2 vel2 : ℚ × ℚ × ℚ) :
    CollisionResult :=
  let dsq := distanceSq pos1 pos2
  let rsq := relativeSpeedSq vel1 vel2
  { distanceSq := dsq
    probability := collisionProbabilityOfSq dsq
    timeToClosestSq := dsq / max rsq 0.01 }

/-- The all-pairs scan of `detectCollisionRisks` (`i < j` double loop),
keeping only pairs with probability above 0.01, before the final sort. -/
def pairRisks : List SatellitePosition → List CollisionRisk
  | [] => []
  | s1 :: rest =>
      (rest.filterMap fun s2 =>
        let result :=
          calculateCollisionProbability s1.position s1.velocity
            s2.position s2.velocity
        if 0.01 < result.probability then
          some { sat1 := s1.name
                 sat2 := s2.name
                 distanceSq := result.distanceSq
                 probability := result.probability
                 timeToClosestApproachSq := result.timeToClosestSq }
        else none) ++ pairRisks rest

/-- Source function `detectCollisionRisks`: all-pairs scan followed by the
sort `(a, b) => b.probability - a.probability`, i.e. descending probability. -/
def detectCollisionRisks (satellites : List SatellitePosition) :
    List CollisionRisk :=
  (pairRisks satellites).mergeSort fun a b =>
    decide (b.probability ≤ a.probability)

/-- Source function `calculateRiskScore`: weighted congestion, collision and
density terms, clamped to 100 and rounded (`Math.round x = ⌊x + 1/2⌋`, which
is exactly `round` on `ℚ`). -/
def calculateRiskScore (totalObjects : ℚ)
    (collisionRisks : List CollisionRisk) : ℤ :=
  let congestionFactor := min (totalObjects / 2000) 1 * 30
  let criticalRisks :=
    ((collisionRisks.filter fun r => decide (0.5 < r.probability)).length : ℚ)
  let highRisks :=
    ((collisionRisks.filter fun r =>
      decide (0.2 < r.probability ∧ r.probability ≤ 0.5)).length : ℚ)
  let collisionFactor := criticalRisks * 10 + highRisks * 5
  let densityFactor := min ((collisionRisks.length : ℚ) / 100) 1 * 20
  let riskScore := min (congestionFactor + collisionFactor + densityFactor) 100
  round riskScore

/-! ## Propulsion engine (src/src/utils/propulsionPhysics.ts)

The rocket equation uses `Math.log` and `Math.exp`, so this part of the
embedding lives over `ℝ`.  `calculateDeltaV` returns `Infinity` as a sentinel
when the requested propellant would drive the final mass to or below the dry
mass; the sentinel is modelled as `none`. -/

/-- Standard gravity constant `G0` of the source, 9.80665 m/s². -/
def G0 : ℝ := 9.80665

/-- Source interface `SpacecraftPropulsion`. -/
structure SpacecraftPropulsion where
  dryMass : ℝ
  propellantMass : ℝ
  initialPropellant : ℝ
  specificImpulse : ℝ
  thrustLevel : ℝ
  minPropellantReserve : ℝ

/-- Source function `calculateDeltaV` (Tsiolkovsky equation).  The source
returns `Infinity` when `m1 <= dryMass`; here that sentinel is `none`. -/
noncomputable def calculateDeltaV (propellant : SpacecraftPropulsion)
    (propellantUsed : ℝ) : Option ℝ :=
  let m0 := propellant.dryMass + propellant.propellantMass
  let m1 := m0 - propellantUsed
  if m1 ≤ propellant.dryMass then none
  else some (propellant.specificImpulse * G0 * Real.log (m0 / m1))

/-- Source function `calculatePropellantRequired` (inverse rocket equation). -/
noncomputable def calculatePropellantRequired
    (propulsion : SpacecraftPropulsion) (deltaV : ℝ) : ℝ :=
  let exhaustVelocity := propulsion.specificImpulse * G0
  let massRat := Real.exp (deltaV / exhaustVelocity)
  let currentMass := propulsion.dryMass + propulsion.propellantMass
  let finalMass := currentMass / massRat
  max 0 (currentMass - finalMass)

/-- Source function `calculateTotalDeltaVCapacity`. -/
noncomputable def calculateTotalDeltaVCapacity
    (propulsion : SpacecraftPropulsion) : Option ℝ :=
  let usablePropellant := propulsion.propellantMass - propulsion.minPropellantReserve
  if usablePropellant ≤ 0 then some 0
  else calculateDeltaV propulsion usablePropellant

/-- Source helper `calculateDeltaVFromMass`.  When `dryMass = 0` the source
divides by zero (JavaScript yields `Infinity`); the total real division of the
model yields `log 0 = 0` there instead, and no claim depends on that case. -/
noncomputable def calculateDeltaVFromMass (dryMass propellantMass isp : ℝ) : ℝ :=
  if propellantMass ≤ 0 then 0
  else isp * G0 * Real.log ((dryMass + propellantMass) / dryMass)

/-- Status values of `MissionLifetimeState`. -/
inductive LifetimeStatus where
  | nominal
  | caution
  | warning
  | critical
  deriving DecidableEq

/-- Source interface `MissionLifetimeState`.  Fields that the source can set
to `Infinity` (remaining Δv and estimated lifetime when the reserve is
nonpositive) are `Option`-valued with `none` as the infinite sentinel. -/
structure MissionLifetimeState where
  remainingPropellant : ℝ
  usedPropellant : ℝ
  cumulativeDeltaV : ℝ
  totalDeltaVCapacity : ℝ
  remainingDeltaV : Option ℝ
  estimatedLifetimeDays : Option ℝ
  nominalLifetimeDays : ℝ
  lifetimePercentage : ℝ
  propellantPercentage : ℝ
  operationalMargin : ℝ
  status : LifetimeStatus

/-- Annual Δv budget of the source (`MISSION_PARAMS`): station keeping 15 +
orbit-decay compensation 8 + 0.5 Δv per collision maneuver times 3 per year. -/
def annualDeltaVBudget : ℝ := 15 + 8 + 0.5 * 3

/-- Source function `calculateMissionLifetimeState`.  When the remaining
capacity is the `Infinity` sentinel (`none`), the source computes
`min(100, Infinity) = 100` for the lifetime percentage; the `match` mirrors
that propagation. -/
noncomputable def calculateMissionLifetimeState
    (propulsion : SpacecraftPropulsion) (cumulativeDeltaV : ℝ) :
    MissionLifetimeState :=
  let usedPropellant := propulsion.initialPropellant - propulsion.propellantMass
  let totalCapacity :=
    calculateDeltaVFromMass propulsion.dryMass
      (propulsion.initialPropellant - propulsion.minPropellantReserve)
      propulsion.specificImpulse
  let remainingCapacity := calculateTotalDeltaVCapacity propulsion
  let remainingDays := remainingCapacity.map fun c => c / annualDeltaVBudget * 365
  let nominalDays : ℝ := 7 * 365
  let lifetimePercentage :=
    match remainingDays with
    | some d => min 100 (d / nominalDays * 100)
    | none => 100
  let propellantPercentage :=
    propulsion.propellantMass / propulsion.initialPropellant * 100
  let operationalMargin :=
    min ((propulsion.propellantMass - propulsion.minPropellantReserve) /
          propulsion.initialPropellant * 100)
      lifetimePercentage
  let status :=
    if operationalMargin < 10 then LifetimeStatus.critical
    else if operationalMargin < 25 then LifetimeStatus.warning
    else if operationalMargin < 50 then LifetimeStatus.caution
    else LifetimeStatus.nominal
  { remainingPropellant := propulsion.propellantMass
    usedPropellant
    cumulativeDeltaV
    totalDeltaVCapacity := totalCapacity
    remainingDeltaV := remainingCapacity
    estimatedLifetimeDays := remainingDays.map fun d => max 0 d
    nominalLifetimeDays := nominalDays
    lifetimePercentage
    propellantPercentage
    operationalMargin
    status }

/-- Concrete propulsion state used for the round-trip counterexample: the
exhaust velocity `Isp * G0` equals exactly 1 m/s, so a request of 1 m/s of Δv
needs `2 - 2/e > 1` kg of propellant, more than is on board. -/
noncomputable def cexPropulsion : SpacecraftPropulsion :=
  { dryMass := 1
    propellantMass := 1
    initialPropellant := 1
    specificImpulse := 20000 / 196133
    thrustLevel := 1
    minPropellantReserve := 0 }

/-- Default spacecraft configuration of the source (`DEFAULT_PROPULSION`). -/
noncomputable def DEFAULT_PROPULSION : SpacecraftPropulsion :=
  { dryMass := 850
    propellantMass := 120
    initialPropellant := 150
    specificImpulse := 290
    thrustLevel := 22
    minPropellantReserve := 8 }

/-! ## Thermal engine (`thermalPhysics`, src/unnamed/part_001)

`runThermalSimulation` consumes its orbital-state argument only through three
quantities: the Boolean eclipse flag of step `i`
(`isInEclipse(position_i, sunVector_i)`, real trigonometry), the constant view
factor to Earth (`0.5 * (1 - sqrt(1 - rho²))`, a function of the constant
altitude alone), and the constant Boolean high-beta test
`|betaAngle| > 60°`.  The embedding abstracts these three real-valued geometry
computations into a `ThermalEnv` record and models the simulation loop, the
temperature integration and the risk-window state machine exactly; all claims
about the loop are proved for every environment, hence for every orbit.
Timestamps (`Date`) are modelled as rational milliseconds since the epoch. -/

/-- Source interface `SatelliteConfig` (thermal). -/
structure SatelliteConfig where
  name : String
  mass : ℚ
  surfaceArea : ℚ
  absorptivity : ℚ
  emissivity : ℚ
  specificHeat : ℚ
  internalPower : ℚ
  minTemp : ℚ
  maxTemp : ℚ
  deriving DecidableEq

/-- Risk level of one timeline sample. -/
inductive RiskLevel where
  | nominal
  | warning
  | critical
  deriving DecidableEq

/-- Risk-window type of the source `RiskWindow` interface. -/
inductive WindowType where
  | eclipse_exit
  | eclipse_entry
  | high_beta
  | prolonged_sun
  deriving DecidableEq

/-- Risk-window severity of the source `RiskWindow` interface. -/
inductive Severity where
  | warning
  | critical
  deriving DecidableEq

/-- Source interface `ThermalState` (one timeline sample; `time` in ms). -/
structure ThermalState where
  time : ℚ
  temperature : ℚ
  solarFlux : ℚ
  albedoFlux : ℚ
  earthIRFlux : ℚ
  internalFlux : ℚ
  netHeatFlux : ℚ
  isEclipse : Bool
  riskLevel : RiskLevel
  deriving DecidableEq

/-- Source interface `RiskWindow` (`startTime`, `endTime` in ms). -/
structure RiskWindow where
  startTime : ℚ
  endTime : ℚ
  type : WindowType
  severity : Severity
  peakTemp : ℚ
  description : String
  deriving DecidableEq

/-- Mitigation type of the source `Mitigation` interface. -/
inductive MitigationType where
  | attitude_slew
  | duty_cycle
  | orbit_timing
  | heater_activation
  deriving DecidableEq

/-- Mitigation priority of the source `Mitigation` interface. -/
inductive MitigationPriority where
  | recommended
  | required
  | optional
  deriving DecidableEq

/-- Source interface `Mitigation`. -/
structure Mitigation where
  type : MitigationType
  description : String
  impact : ℚ
  priority : MitigationPriority
  deriving DecidableEq

/-- Source interface `ThermalPrediction`. -/
structure ThermalPrediction where
  peakTemperature : ℚ
  minTemperature : ℚ
  timeToOverheat : Option ℚ
  timeToUnderheat : Option ℚ
  riskScore : ℤ
  riskWindows : List RiskWindow
  mitigations : List Mitigation
  thermalTimeline : List ThermalState
  deriving DecidableEq

/-- Orbit-derived inputs of the simulation loop (see the module comment):
`eclipse i` is `isInEclipse` at step `i`, `viewFactor` is the constant
Earth view factor for the orbit altitude, and `highBeta` is the constant
test `|betaAngle| > 60°`. -/
structure ThermalEnv where
  highBeta : Bool
  viewFactor : ℚ
  eclipse : ℕ → Bool

/-- Physical constant of the source: solar constant, W/m². -/
def SOLAR_CONSTANT : ℚ := 1361

/-- Physical constant of the source: Stefan-Boltzmann constant, W/(m²K⁴). -/
def STEFAN_BOLTZMANN : ℚ := 5.67e-8

/-- Physical constant of the source: average Earth IR emission, W/m². -/
def EARTH_IR_EMISSION : ℚ := 237

/-- Physical constant of the source: average Earth albedo. -/
def EARTH_ALBEDO : ℚ := 0.3

/-- Flux record returned by `calculateHeatFluxes`. -/
structure HeatFluxes where
  solarFlux : ℚ
  albedoFlux : ℚ
  earthIRFlux : ℚ
  internalFlux : ℚ
  radiatedFlux : ℚ
  netFlux : ℚ
  isEclipse : Bool
  deriving DecidableEq

/-- Source function `calculateHeatFluxes`, with the eclipse flag and the view
factor supplied by the environment (module comment).  If `surfaceArea = 0` the
source divides by zero (JavaScript `Infinity`); the total division of the model
returns 0 there. -/
def calculateHeatFluxes (config : SatelliteConfig) (viewFactor : ℚ)
    (eclipse : Bool) (temperature : ℚ) : HeatFluxes :=
  let solarFlux := if eclipse then 0 else SOLAR_CONSTANT * config.absorptivity
  let albedoBase := SOLAR_CONSTANT * EARTH_ALBEDO * viewFactor * config.absorptivity
  let albedoFlux := if eclipse then albedoBase * 0.1 else albedoBase
  let earthIRFlux := EARTH_IR_EMISSION * viewFactor * config.emissivity
  let internalFlux := config.internalPower / config.surfaceArea
  let radiatedFlux := config.emissivity * STEFAN_BOLTZMANN * temperature ^ 4
  let netFlux := solarFlux + albedoFlux + earthIRFlux + internalFlux - radiatedFlux
  { solarFlux, albedoFlux, earthIRFlux, internalFlux, radiatedFlux, netFlux,
    isEclipse := eclipse }

/-- Source function `propagateTemperature` (`dT/dt = Q_net / (m c)`).  With
`mass * specificHeat = 0` the source divides by zero (JavaScript produces a
non-finite temperature); the total division of the model returns 0 there. -/
def propagateTemperature (config : SatelliteConfig) (currentTemp netHeatFlux
    deltaTime : ℚ) : ℚ :=
  let thermalMass := config.mass * config.specificHeat
  let heatInput := netHeatFlux * config.surfaceArea * deltaTime
  let deltaT := heatInput / thermalMass
  currentTemp + deltaT

/-- Source helper `getRiskWindowDescription`. -/
def getRiskWindowDescription : WindowType → String
  | WindowType.eclipse_exit =>
      "Rapid temperature rise after eclipse exit due to sudden solar exposure"
  | WindowType.eclipse_entry =>
      "Rapid temperature drop upon entering Earth shadow"
  | WindowType.high_beta =>
      "Extended sun exposure due to high beta angle orbit geometry"
  | WindowType.prolonged_sun =>
      "Continuous solar heating without eclipse cooling cycles"

/-- Source helper `generateMitigations`. -/
def generateMitigations (config : SatelliteConfig) (peakTemp minTemp : ℚ)
    (riskWindows : List RiskWindow) : List Mitigation :=
  let hot : List Mitigation :=
    if config.maxTemp - 30 < peakTemp then
      [{ type := MitigationType.attitude_slew
         description := "Rotate spacecraft to reduce solar panel exposure and increase radiator view to cold space"
         impact := -15
         priority := if config.maxTemp < peakTemp then MitigationPriority.required
                     else MitigationPriority.recommended },
       { type := MitigationType.duty_cycle
         description := "Reduce payload duty cycle by 25% to decrease internal heat generation"
         impact := -8
         priority := MitigationPriority.recommended }]
    else []
  let cold : List Mitigation :=
    if minTemp < config.minTemp + 30 then
      [{ type := MitigationType.heater_activation
         description := "Activate survival heaters to maintain minimum temperature during eclipse"
         impact := 12
         priority := if minTemp < config.minTemp then MitigationPriority.required
                     else MitigationPriority.recommended },
       { type := MitigationType.attitude_slew
         description := "Orient spacecraft to maximize solar absorption during eclipse exit"
         impact := 10
         priority := MitigationPriority.optional }]
    else []
  let eclipseWindows := riskWindows.filter fun w =>
    decide (w.type = WindowType.eclipse_exit ∨ w.type = WindowType.eclipse_entry)
  let timing : List Mitigation :=
    if 0 < eclipseWindows.length then
      [{ type := MitigationType.orbit_timing
         description := "Schedule high-power operations away from eclipse transitions to buffer thermal swings"
         impact := -5
         priority := MitigationPriority.optional }]
    else []
  let beta : List Mitigation :=
    if riskWindows.any fun w => decide (w.type = WindowType.high_beta) then
      [{ type := MitigationType.attitude_slew
         description := "Implement beta-angle management attitude profile to balance thermal load"
         impact := -12
         priority := MitigationPriority.recommended }]
    else []
  hot ++ cold ++ timing ++ beta

/-- Timestamp (ms) of step `i` of the simulation:
`startTime.getTime() + i * timeStepSeconds * 1000`. -/
def timeAt (startMs ts : ℚ) (i : ℕ) : ℚ :=
  startMs + i * ts * 1000

/-- The window-closing step of the loop body: when a window is open and the
risk level has returned to nominal, the window is appended with the current
time as its end, the running peak as its recorded peak and the severity
computed from that running peak, and the open-window state is cleared. -/
def closeWindow (config : SatelliteConfig) (currentTime peakTemp : ℚ)
    (riskLevel : RiskLevel) (windows : List RiskWindow)
    (ow : Option (ℚ × WindowType)) :
    List RiskWindow × Option (ℚ × WindowType) :=
  match ow with
  | some (st, ty) =>
      if riskLevel = RiskLevel.nominal then
        (windows ++
          [({ startTime := st
              endTime := currentTime
              type := ty
              severity := if config.maxTemp - 20 < peakTemp then
                  Severity.critical else Severity.warning
              peakTemp := peakTemp
              description := getRiskWindowDescription ty } : RiskWindow)],
         none)
      else (windows, some (st, ty))
  | none => (windows, none)

/-- Mutable loop state of `runThermalSimulation`.  The three source variables
`inRiskWindow` / `riskWindowStart` / `riskWindowType` are always set and
cleared together (all set on open, all cleared on close, all empty initially),
so they are modelled as the single option `openWindow`. -/
structure SimState where
  temperature : ℚ
  peakTemp : ℚ
  minTemp : ℚ
  timeToOverheat : Option ℚ
  timeToUnderheat : Option ℚ
  openWindow : Option (ℚ × WindowType)
  wasEclipse : Bool
  consecutiveSunExposure : ℚ
  riskWindows : List RiskWindow
  timeline : List ThermalState

/-- The four risk-window opening checks of the loop body, in source order
(eclipse exit, eclipse entry, prolonged sun, high beta); each fires only when
no window is currently open (`isNone` is the negation of `inRiskWindow`). -/
def updateOpenWindow (wasEclipse ecl highBeta : Bool) (consec currentTime : ℚ)
    (ow : Option (ℚ × WindowType)) : Option (ℚ × WindowType) :=
  let ow1 := if wasEclipse && !ecl && ow.isNone then
      some (currentTime, WindowType.eclipse_exit) else ow
  let ow2 := if !wasEclipse && ecl && ow1.isNone then
      some (currentTime, WindowType.eclipse_entry) else ow1
  let ow3 := if !ecl && decide (3600 < consec) && ow2.isNone then
      some (currentTime, WindowType.prolonged_sun) else ow2
  if highBeta && ow3.isNone then some (currentTime, WindowType.high_beta) else ow3

/-- One iteration of the `for` loop of `runThermalSimulation` at step `i`. -/
def simStep (config : SatelliteConfig) (env : ThermalEnv) (startMs ts : ℚ)
    (s : SimState) (i : ℕ) : SimState :=
  let currentTime := timeAt startMs ts i
  let ecl := env.eclipse i
  let fluxes := calculateHeatFluxes config env.viewFactor ecl s.temperature
  let temperature := propagateTemperature config s.temperature fluxes.netFlux ts
  let peakTemp := max s.peakTemp temperature
  let minTemp := min s.minTemp temperature
  let timeToOverheat :=
    if config.maxTemp < temperature ∧ s.timeToOverheat = none then
      some (i * ts) else s.timeToOverheat
  let timeToUnderheat :=
    if temperature < config.minTemp ∧ s.timeToUnderheat = none then
      some (i * ts) else s.timeToUnderheat
  let riskLevel :=
    if config.maxTemp - temperature < 10 ∨ temperature - config.minTemp < 10 then
      RiskLevel.critical
    else if config.maxTemp - temperature < 30 ∨ temperature - config.minTemp < 30 then
      RiskLevel.warning
    else RiskLevel.nominal
  let consecutiveSunExposure := if ecl then 0 else s.consecutiveSunExposure + ts
  let ow := updateOpenWindow s.wasEclipse ecl env.highBeta
    consecutiveSunExposure currentTime s.openWindow
  let closed := closeWindow config currentTime peakTemp riskLevel s.riskWindows ow
  let entry : ThermalState :=
    { time := currentTime
      temperature
      solarFlux := fluxes.solarFlux
      albedoFlux := fluxes.albedoFlux
      earthIRFlux := fluxes.earthIRFlux
      internalFlux := fluxes.internalFlux
      netHeatFlux := fluxes.netFlux
      isEclipse := ecl
      riskLevel }
  { temperature
    peakTemp
    minTemp
    timeToOverheat
    timeToUnderheat
    openWindow := closed.2
    wasEclipse := ecl
    consecutiveSunExposure
    riskWindows := closed.1
    timeline := s.timeline ++ [entry] }

/-- Initial loop state: the integration always starts at the fixed literal
293 K (20 °C); no input supplies the initial temperature. -/
def simInit : SimState :=
  { temperature := 293
    peakTemp := 293
    minTemp := 293
    timeToOverheat := none
    timeToUnderheat := none
    openWindow := none
    wasEclipse := false
    consecutiveSunExposure := 0
    riskWindows := []
    timeline := [] }

/-- The first `n` iterations of the simulation loop. -/
def simRun (config : SatelliteConfig) (env : ThermalEnv) (startMs ts : ℚ)
    (n : ℕ) : SimState :=
  (List.range n).foldl (simStep config env startMs ts) simInit

/-- Source function `runThermalSimulation`.  The loop bound is
`steps = Math.floor(durationSeconds / timeStepSeconds)` with `i` running from
0 to `steps` inclusive, i.e. `(steps + 1).toNat` iterations (none when
`steps` is negative, as in the source). -/
def runThermalSimulation (config : SatelliteConfig) (env : ThermalEnv)
    (startMs durationSeconds timeStepSeconds : ℚ) : ThermalPrediction :=
  let steps : ℤ := ⌊durationSeconds / timeStepSeconds⌋
  let final := simRun config env startMs timeStepSeconds (steps + 1).toNat
  let tempRangeRisk :=
    max (max ((final.peakTemp - config.maxTemp + 50) / 100)
          ((config.minTemp - final.minTemp + 50) / 100)) 0 * 50
  let windowRisk := final.riskWindows.foldl
    (fun acc w => acc + if w.severity = Severity.critical then 15 else 8) 0
  let riskScore : ℤ := min 100 (round (tempRangeRisk + windowRisk))
  { peakTemperature := final.peakTemp
    minTemperature := final.minTemp
    timeToOverheat := final.timeToOverheat
    timeToUnderheat := final.timeToUnderheat
    riskScore
    riskWindows := final.riskWindows
    mitigations := generateMitigations config final.peakTemp final.minTemp
      final.riskWindows
    thermalTimeline := final.timeline }

/-- Default satellite configuration of the source
(`DEFAULT_SATELLITE_CONFIG`). -/
def DEFAULT_SATELLITE_CONFIG : SatelliteConfig :=
  { name := "Default LEO Satellite"
    mass := 1000
    surfaceArea := 20
    absorptivity := 0.3
    emissivity := 0.85
    specificHeat := 900
    internalPower := 500
    minTemp := 223
    maxTemp := 373 }

/-- Configuration with zero mass (otherwise the default), used to exhibit the
absence of input validation in `runThermalSimulation`: the source divides the
heat input by `mass * specificHeat = 0` at every step and still returns a
`ThermalPrediction` instead of an invalid-configuration error. -/
def zeroMassConfig : SatelliteConfig :=
  { name := "Degenerate"
    mass := 0
    surfaceArea := 20
    absorptivity := 0.3
    emissivity := 0.85
    specificHeat := 900
    internalPower := 500
    minTemp := 223
    maxTemp := 373 }

/-- Environment with no eclipses, zero view factor and low beta angle. -/
def quietEnv : ThermalEnv :=
  { highBeta := false
    viewFactor := 0
    eclipse := fun _ => false }

/-- Configuration used for the window-peak counterexample: unit thermal mass
and area, full absorptivity, zero emissivity, strongly negative internal
power, and operational limits wide enough that the risk level stays nominal. -/
def cexThermalConfig : SatelliteConfig :=
  { name := "Window peak counterexample"
    mass := 1
    surfaceArea := 1
    absorptivity := 1
    emissivity := 0
    specificHeat := 1
    internalPower := -1000
    minTemp := -1000000
    maxTemp := 1000000 }

/-- Environment for the window-peak counterexample: a single eclipse entry at
step 2, after two sunlit steps that drive the running peak to 1015 K. -/
def cexThermalEnv : ThermalEnv :=
  { highBeta := false
    viewFactor := 0
    eclipse := fun i => decide (i = 2) }

/-- The single risk window produced by the window-peak counterexample run:
it opens and closes at step 2 (2000 ms) with the timeline temperature there
at 15 K, yet records the global running peak 1015 K. -/
def cexWindow : RiskWindow :=
  { startTime := 2000
    endTime := 2000
    type := WindowType.eclipse_entry
    severity := Severity.warning
    peakTemp := 1015
    description := getRiskWindowDescription WindowType.eclipse_entry }

/-- Loop invariant of the thermal simulation after `n` iterations: the
running extremes bracket the fixed 293 K start, the timeline has one sample
per step with times below the next step time and temperatures below the
running peak, closed risk windows are well-formed, chronologically disjoint
and carry the severity rule and the running-peak domination, and an open
window starts after every closed window ends. -/
def SimInv (config : SatelliteConfig) (startMs ts : ℚ) (n : ℕ)
    (s : SimState) : Prop :=
  (s.minTemp ≤ 293 ∧ 293 ≤ s.peakTemp) ∧
  s.timeline.length = n ∧
  (∀ e ∈ s.timeline, e.temperature ≤ s.peakTemp) ∧
  (∀ e ∈ s.timeline, e.time < timeAt startMs ts n) ∧
  (∀ w ∈ s.riskWindows, w.startTime ≤ w.endTime ∧ w.endTime < timeAt startMs ts n) ∧
  s.riskWindows.Pairwise (fun a b => a.endTime < b.startTime) ∧
  (∀ st ty, s.openWindow = some (st, ty) →
    (∀ w ∈ s.riskWindows, w.endTime < st) ∧ st < timeAt startMs ts n) ∧
  (∀ w ∈ s.riskWindows,
    (w.severity = Severity.critical ↔ config.maxTemp - 20 < w.peakTemp)) ∧
  (∀ w ∈ s.riskWindows, ∀ e ∈ s.timeline,
    e.time ≤ w.endTime → e.temperature ≤ w.peakTemp)

/-! ## Theorems -/

/-- Rounding is monotone (`round x = ⌊x + 1/2⌋` on `ℚ`). -/
lemma round_mono_q {x y : ℚ} (h : x ≤ y) : round x ≤ round y := by
  rw [round_eq, round_eq]
  exact Int.floor_mono (by linarith)

/-- Rounding a nonnegative rational is nonnegative. -/
lemma round_nonneg_q {x : ℚ} (h : 0 ≤ x) : 0 ≤ round x := by
  rw [round_eq]
  exact Int.le_floor.mpr (by push_cast; linarith)

/-- Rounding a rational that is at most 100 stays at most 100. -/
lemma round_le_100_q {x : ℚ} (h : x ≤ 100) : round x ≤ 100 := by
  rw [round_eq]
  have : ⌊x + 1/2⌋ < 101 := Int.floor_lt.mpr (by push_cast; linarith)
  omega

/-- C4: the probability returned by `calculateCollisionProbability` is the
ladder 0.85 / 0.45 / 0.15 / 0.02 / 0 over the distance bands
`< 5`, `< 25`, `< 100`, `< 500`, `≥ 500` km; consequently it is a
non-increasing step function of the distance and always lies in `[0, 1]`.
The first two conjuncts tie the full function to the ladder (the squared
carrier agrees with the ladder on every nonnegative distance). -/
theorem collisionProbability_spec :
    (∀ pos1 vel1 pos2 vel2 : ℚ × ℚ × ℚ,
      (calculateCollisionProbability pos1 vel1 pos2 vel2).probability =
        collisionProbabilityOfSq (distanceSq pos1 pos2)) ∧
    (∀ d : ℚ, 0 ≤ d →
      collisionProbabilityOfSq (d * d) = collisionProbability d) ∧
    (∀ d : ℚ,
      (d < 5 → collisionProbability d = 0.85) ∧
      (5 ≤ d → d < 25 → collisionProbability d = 0.45) ∧
      (25 ≤ d → d < 100 → collisionProbability d = 0.15) ∧
      (100 ≤ d → d < 500 → collisionProbability d = 0.02) ∧
      (500 ≤ d → collisionProbability d = 0)) ∧
    (∀ d1 d2 : ℚ, d1 < d2 →
      collisionProbability d2 ≤ collisionProbability d1) ∧
    (∀ d : ℚ, 0 ≤ collisionProbability d ∧ collisionProbability d ≤ 1) := by
  refine ⟨fun _ _ _ _ => rfl, ?_, ?_, ?_, ?_⟩
  · intro d hd
    unfold collisionProbabilityOfSq collisionProbability
    split_ifs <;> first | rfl | nlinarith
  · intro d
    unfold collisionProbability
    refine ⟨?_, ?_, ?_, ?_, ?_⟩ <;> intros <;> split_ifs <;>
      first | rfl | linarith
  · intro d1 d2 h
    unfold collisionProbability
    split_ifs <;> (try norm_num) <;> linarith
  · intro d
    unfold collisionProbability
    split_ifs <;> norm_num

/-- Witness for C4 at concrete distances 3 and 7 km. -/
theorem collisionProbability_spec_instance :
    (3:ℚ) < 5 ∧ collisionProbability 3 = 0.85 ∧
    collisionProbability 7 ≤ collisionProbability 3 ∧
    collisionProbabilityOfSq (3 * 3) = collisionProbability 3 :=
  ⟨by norm_num, (collisionProbability_spec.2.2.1 3).1 (by norm_num),
   collisionProbability_spec.2.2.2.1 3 7 (by norm_num),
   collisionProbability_spec.2.1 3 (by norm_num)⟩

/-- C6: `calculateRiskScore` equals the rounded, 100-clamped weighted sum of
the congestion, collision and density terms; for a nonnegative object count
it lies in `[0, 100]`, and it is monotone both in the object count and under
adding a high-probability (`> 0.5`) risk. -/
theorem calculateRiskScore_spec :
    (∀ (t : ℚ) (risks : List CollisionRisk),
      calculateRiskScore t risks =
        round (min 100 (min (t / 2000) 1 * 30 +
          (10 * ((risks.filter fun r => decide (0.5 < r.probability)).length : ℚ) +
           5 * ((risks.filter fun r =>
              decide (0.2 < r.probability ∧ r.probability ≤ 0.5)).length : ℚ)) +
          min ((risks.length : ℚ) / 100) 1 * 20))) ∧
    (∀ (t : ℚ) (risks : List CollisionRisk), 0 ≤ t →
      0 ≤ calculateRiskScore t risks ∧ calculateRiskScore t risks ≤ 100) ∧
    (∀ (t1 t2 : ℚ) (risks : List CollisionRisk), t1 ≤ t2 →
      calculateRiskScore t1 risks ≤ calculateRiskScore t2 risks) ∧
    (∀ (t : ℚ) (r : CollisionRisk) (risks : List CollisionRisk),
      0.5 < r.probability →
      calculateRiskScore t risks ≤ calculateRiskScore t (r :: risks)) := by
  refine ⟨?_, ?_, ?_, ?_⟩
  · intro t risks
    unfold calculateRiskScore
    dsimp only
    rw [min_comm _ (100:ℚ)]
    congr 2
    ring
  · intro t risks ht
    unfold calculateRiskScore
    dsimp only
    have h1 : (0:ℚ) ≤ min (t / 2000) 1 := le_min (by positivity) (by norm_num)
    have h2 : (0:ℚ) ≤ min ((risks.length : ℚ) / 100) 1 :=
      le_min (by positivity) (by norm_num)
    have h3 : (0:ℚ) ≤
        ((risks.filter fun r => decide (0.5 < r.probability)).length : ℚ) :=
      Nat.cast_nonneg _
    have h4 : (0:ℚ) ≤ ((risks.filter fun r =>
        decide (0.2 < r.probability ∧ r.probability ≤ 0.5)).length : ℚ) :=
      Nat.cast_nonneg _
    constructor
    · refine round_nonneg_q (le_min ?_ (by norm_num))
      linarith
    · exact round_le_100_q (min_le_right _ _)
  · intro t1 t2 risks h
    unfold calculateRiskScore
    dsimp only
    refine round_mono_q (min_le_min ?_ le_rfl)
    have : min (t1 / 2000) 1 ≤ min (t2 / 2000) 1 :=
      min_le_min (by gcongr) le_rfl
    linarith
  · intro t r risks hr
    unfold calculateRiskScore
    dsimp only
    refine round_mono_q (min_le_min ?_ le_rfl)
    have hcrit : ((r :: risks).filter fun x => decide (0.5 < x.probability)) =
        r :: (risks.filter fun x => decide (0.5 < x.probability)) := by
      simp [List.filter_cons, hr]
    have hhigh : ((r :: risks).filter fun x =>
        decide (0.2 < x.probability ∧ x.probability ≤ 0.5)) =
        risks.filter fun x =>
          decide (0.2 < x.probability ∧ x.probability ≤ 0.5) := by
      have : ¬(0.2 < r.probability ∧ r.probability ≤ 0.5) := by
        rintro ⟨-, h2⟩; linarith
      simp [List.filter_cons, this]
    rw [hcrit, hhigh]
    have hden : min ((risks.length : ℚ) / 100) 1 ≤
        min (((risks.length : ℚ) + 1) / 100) 1 :=
      min_le_min (by gcongr; linarith) le_rfl
    simp only [List.length_cons, Nat.cast_add, Nat.cast_one]
    linarith

/-- Witness for C6 at concrete inputs. -/
theorem calculateRiskScore_spec_instance :
    (0:ℚ) ≤ 1000 ∧
    (0 ≤ calculateRiskScore 1000 [] ∧ calculateRiskScore 1000 [] ≤ 100) ∧
    calculateRiskScore 500 [] ≤ calculateRiskScore 1000 [] ∧
    calculateRiskScore 1000 [] ≤ calculateRiskScore 1000
      [{ sat1 := "a", sat2 := "b", distanceSq := 1, probability := 0.85,
         timeToClosestApproachSq := 1 }] :=
  ⟨by norm_num, calculateRiskScore_spec.2.1 1000 [] (by norm_num),
   calculateRiskScore_spec.2.2.1 500 1000 [] (by norm_num),
   calculateRiskScore_spec.2.2.2 1000
     { sat1 := "a", sat2 := "b", distanceSq := 1, probability := 0.85,
       timeToClosestApproachSq := 1 } [] (by norm_num)⟩

/-- The status threshold chain of `calculateMissionLifetimeState`, proved
band-exact for an arbitrary margin value. -/
lemma status_iff (m : ℝ) :
    ((if m < 10 then LifetimeStatus.critical
      else if m < 25 then LifetimeStatus.warning
      else if m < 50 then LifetimeStatus.caution
      else LifetimeStatus.nominal) = LifetimeStatus.critical ↔ m < 10) ∧
    ((if m < 10 then LifetimeStatus.critical
      else if m < 25 then LifetimeStatus.warning
      else if m < 50 then LifetimeStatus.caution
      else LifetimeStatus.nominal) = LifetimeStatus.warning ↔ 10 ≤ m ∧ m < 25) ∧
    ((if m < 10 then LifetimeStatus.critical
      else if m < 25 then LifetimeStatus.warning
      else if m < 50 then LifetimeStatus.caution
      else LifetimeStatus.nominal) = LifetimeStatus.caution ↔ 25 ≤ m ∧ m < 50) ∧
    ((if m < 10 then LifetimeStatus.critical
      else if m < 25 then LifetimeStatus.warning
      else if m < 50 then LifetimeStatus.caution
      else LifetimeStatus.nominal) = LifetimeStatus.nominal ↔ 50 ≤ m) := by
  by_cases h1 : m < 10
  · rw [if_pos h1]
    refine ⟨iff_of_true rfl h1, iff_of_false (by simp) ?_,
      iff_of_false (by simp) ?_, iff_of_false (by simp) ?_⟩
    · rintro ⟨a, -⟩; linarith
    · rintro ⟨a, -⟩; linarith
    · intro a; linarith
  · rw [if_neg h1]
    by_cases h2 : m < 25
    · rw [if_pos h2]
      refine ⟨iff_of_false (by simp) h1,
        iff_of_true rfl ⟨not_lt.mp h1, h2⟩,
        iff_of_false (by simp) ?_, iff_of_false (by simp) ?_⟩
      · rintro ⟨a, -⟩; linarith
      · intro a; linarith
    · rw [if_neg h2]
      by_cases h3 : m < 50
      · rw [if_pos h3]
        refine ⟨iff_of_false (by simp) h1, iff_of_false (by simp) ?_,
          iff_of_true rfl ⟨by linarith [not_lt.mp h2], h3⟩,
          iff_of_false (by simp) ?_⟩
        · rintro ⟨-, b⟩; linarith [not_lt.mp h2]
        · intro a; linarith
      · rw [if_neg h3]
        refine ⟨iff_of_false (by simp) h1, iff_of_false (by simp) ?_,
          iff_of_false (by simp) ?_, iff_of_true rfl (not_lt.mp h3)⟩
        · rintro ⟨-, b⟩; linarith [not_lt.mp h3]
        · rintro ⟨-, b⟩; linarith

/-- C7: the operational margin of `calculateMissionLifetimeState` is the
minimum of the propellant-reserve percentage and the lifetime percentage, and
the status is critical / warning / caution / nominal exactly on the margin
bands `< 10`, `[10, 25)`, `[25, 50)`, `≥ 50`. -/
theorem missionLifetimeStatus_spec (p : SpacecraftPropulsion) (dv : ℝ) :
    (calculateMissionLifetimeState p dv).operationalMargin =
      min ((p.propellantMass - p.minPropellantReserve) /
            p.initialPropellant * 100)
        (calculateMissionLifetimeState p dv).lifetimePercentage ∧
    ((calculateMissionLifetimeState p dv).status = LifetimeStatus.critical ↔
      (calculateMissionLifetimeState p dv).operationalMargin < 10) ∧
    ((calculateMissionLifetimeState p dv).status = LifetimeStatus.warning ↔
      10 ≤ (calculateMissionLifetimeState p dv).operationalMargin ∧
      (calculateMissionLifetimeState p dv).operationalMargin < 25) ∧
    ((calculateMissionLifetimeState p dv).status = LifetimeStatus.caution ↔
      25 ≤ (calculateMissionLifetimeState p dv).operationalMargin ∧
      (calculateMissionLifetimeState p dv).operationalMargin < 50) ∧
    ((calculateMissionLifetimeState p dv).status = LifetimeStatus.nominal ↔
      50 ≤ (calculateMissionLifetimeState p dv).operationalMargin) :=
  ⟨rfl, (status_iff _).1, (status_iff _).2.1, (status_iff _).2.2.1,
    (status_iff _).2.2.2⟩

/-- C8: `calculateDeltaV` returns the infinite sentinel exactly when the
final mass `m0 - propellantUsed` is at or below the dry mass, equivalently
when `propellantUsed ≥ propellantMass`; for every smaller `propellantUsed` it
returns the finite Tsiolkovsky value `Isp * g0 * ln(m0 / m1)`. -/
theorem calculateDeltaV_sentinel_spec (p : SpacecraftPropulsion) (used : ℝ) :
    (calculateDeltaV p used = none ↔
      p.dryMass + p.propellantMass - used ≤ p.dryMass) ∧
    (calculateDeltaV p used = none ↔ p.propellantMass ≤ used) ∧
    (used < p.propellantMass →
      calculateDeltaV p used = some (p.specificImpulse * G0 *
        Real.log ((p.dryMass + p.propellantMass) /
          (p.dryMass + p.propellantMass - used)))) := by
  have hiff : p.dryMass + p.propellantMass - used ≤ p.dryMass ↔
      p.propellantMass ≤ used := by constructor <;> (intro h; linarith)
  unfold calculateDeltaV
  dsimp only
  refine ⟨?_, ?_, ?_⟩
  · split_ifs with h
    · simp [h]
    · simp [h]
  · split_ifs with h
    · simp [hiff.mp h]
    · simp
      linarith [not_le.mp h]
  · intro hu
    rw [if_neg (by rw [hiff]; linarith)]

/-- Witness for C8 at the default spacecraft configuration with a 5 kg burn. -/
theorem calculateDeltaV_sentinel_instance :
    (5:ℝ) < DEFAULT_PROPULSION.propellantMass ∧
    calculateDeltaV DEFAULT_PROPULSION 5 =
      some (DEFAULT_PROPULSION.specificImpulse * G0 *
        Real.log ((DEFAULT_PROPULSION.dryMass + DEFAULT_PROPULSION.propellantMass) /
          (DEFAULT_PROPULSION.dryMass + DEFAULT_PROPULSION.propellantMass - 5))) :=
  ⟨by norm_num [DEFAULT_PROPULSION],
   (calculateDeltaV_sentinel_spec DEFAULT_PROPULSION 5).2.2
     (by norm_num [DEFAULT_PROPULSION])⟩

/-- C1 counterexample: for the propulsion state `cexPropulsion` (positive dry
mass, propellant mass and specific impulse) and `deltaV = 1 > 0`, the inverse
rocket equation asks for `2 - 2/e > 1` kg of propellant, which exceeds the
1 kg on board, so `calculateDeltaV` returns the infinite sentinel instead of
recovering the value 1: the unrestricted converse round trip is false. -/
theorem rocket_roundTrip_cex :
    (0 < cexPropulsion.dryMass ∧ 0 < cexPropulsion.propellantMass ∧
      0 < cexPropulsion.specificImpulse ∧ (0:ℝ) < 1) ∧
    calculateDeltaV cexPropulsion (calculatePropellantRequired cexPropulsion 1) =
      none ∧
    calculateDeltaV cexPropulsion (calculatePropellantRequired cexPropulsion 1) ≠
      some 1 := by
  have hve : cexPropulsion.specificImpulse * G0 = 1 := by
    norm_num [cexPropulsion, G0]
  have h2 : cexPropulsion.dryMass + cexPropulsion.propellantMass = 2 := by
    norm_num [cexPropulsion]
  have hexp : (2:ℝ) ≤ Real.exp 1 := by
    have := Real.add_one_le_exp (1:ℝ)
    linarith
  have hexp0 : (0:ℝ) < Real.exp 1 := Real.exp_pos 1
  have hdivle : (2:ℝ) / Real.exp 1 ≤ 1 := by
    rw [div_le_one hexp0]
    linarith
  have hreq : calculatePropellantRequired cexPropulsion 1 = 2 - 2 / Real.exp 1 := by
    unfold calculatePropellantRequired
    dsimp only
    rw [hve, h2]
    norm_num
    linarith
  have hnone : calculateDeltaV cexPropulsion
      (calculatePropellantRequired cexPropulsion 1) = none := by
    rw [hreq]
    unfold calculateDeltaV
    dsimp only
    rw [if_pos]
    rw [h2, show cexPropulsion.dryMass = (1:ℝ) from by norm_num [cexPropulsion]]
    linarith
  exact ⟨⟨by norm_num [cexPropulsion], by norm_num [cexPropulsion],
    by norm_num [cexPropulsion], by norm_num⟩, hnone, by rw [hnone]; simp⟩

/-- C1 (amended): with positive dry mass, propellant mass and specific
impulse, the rocket-equation round trip is exact over the reals: recovering
the used mass from its Δv holds for every `0 < used < propellantMass`, and
recovering a Δv from its propellant cost holds for every `deltaV > 0` below
the total Δv capacity `Isp * g0 * ln(m0 / dryMass)` (above it the required
propellant exceeds the propellant mass and `calculateDeltaV` returns the
infinite sentinel, as the counterexample shows). -/
theorem rocket_roundTrip (p : SpacecraftPropulsion)
    (hd : 0 < p.dryMass) (hp : 0 < p.propellantMass)
    (hi : 0 < p.specificImpulse) :
    (∀ used : ℝ, 0 < used → used < p.propellantMass →
      (calculateDeltaV p used).map (calculatePropellantRequired p) =
        some used) ∧
    (∀ dv : ℝ, 0 < dv →
      dv < p.specificImpulse * G0 *
        Real.log ((p.dryMass + p.propellantMass) / p.dryMass) →
      calculateDeltaV p (calculatePropellantRequired p dv) = some dv) := by
  have hG : (0:ℝ) < G0 := by norm_num [G0]
  have hve : 0 < p.specificImpulse * G0 := mul_pos hi hG
  have hm0 : 0 < p.dryMass + p.propellantMass := by linarith
  have hcancel : ∀ x : ℝ, x ≠ 0 →
      (p.dryMass + p.propellantMass) / ((p.dryMass + p.propellantMass) / x) =
        x := by
    intro x hx
    rw [div_div_eq_mul_div, mul_comm (p.dryMass + p.propellantMass) x,
      mul_div_assoc, div_self (ne_of_gt hm0), mul_one]
  constructor
  · intro used hu hupm
    have hm1 : p.dryMass < p.dryMass + p.propellantMass - used := by linarith
    have hm1pos : 0 < p.dryMass + p.propellantMass - used := by linarith
    have hquot : 0 < (p.dryMass + p.propellantMass) /
        (p.dryMass + p.propellantMass - used) := by positivity
    unfold calculateDeltaV
    dsimp only
    rw [if_neg (by linarith)]
    rw [Option.map_some']
    congr 1
    unfold calculatePropellantRequired
    dsimp only
    rw [mul_comm (p.specificImpulse * G0) (Real.log _), mul_div_assoc,
      div_self (ne_of_gt hve), mul_one, Real.exp_log hquot]
    rw [hcancel _ (ne_of_gt hm1pos)]
    rw [max_eq_right (by linarith)]
    ring
  · intro dv hdv hcap
    have hMR1 : 1 < Real.exp (dv / (p.specificImpulse * G0)) := by
      have h0 : Real.exp 0 < Real.exp (dv / (p.specificImpulse * G0)) :=
        Real.exp_lt_exp.mpr (by positivity)
      rwa [Real.exp_zero] at h0
    have hMR0 : (0:ℝ) < Real.exp (dv / (p.specificImpulse * G0)) :=
      Real.exp_pos _
    have hreq : calculatePropellantRequired p dv =
        (p.dryMass + p.propellantMass) -
          (p.dryMass + p.propellantMass) /
            Real.exp (dv / (p.specificImpulse * G0)) := by
      unfold calculatePropellantRequired
      dsimp only
      rw [max_eq_right]
      have : (p.dryMass + p.propellantMass) /
          Real.exp (dv / (p.specificImpulse * G0)) <
          p.dryMass + p.propellantMass := div_lt_self hm0 hMR1
      linarith
    have hm1' : p.dryMass < (p.dryMass + p.propellantMass) /
        Real.exp (dv / (p.specificImpulse * G0)) := by
      have hlt : dv / (p.specificImpulse * G0) <
          Real.log ((p.dryMass + p.propellantMass) / p.dryMass) := by
        rw [div_lt_iff₀ hve]
        linarith [hcap]
      have hexplt : Real.exp (dv / (p.specificImpulse * G0)) <
          (p.dryMass + p.propellantMass) / p.dryMass := by
        have := Real.exp_lt_exp.mpr hlt
        rwa [Real.exp_log (by positivity)] at this
      rw [lt_div_iff₀ hMR0]
      calc p.dryMass * Real.exp (dv / (p.specificImpulse * G0))
          < p.dryMass * ((p.dryMass + p.propellantMass) / p.dryMass) := by
            exact mul_lt_mul_of_pos_left hexplt hd
        _ = p.dryMass + p.propellantMass := by field_simp
    unfold calculateDeltaV
    dsimp only
    rw [hreq]
    rw [if_neg (by push_neg; linarith)]
    congr 1
    have hsimp : p.dryMass + p.propellantMass -
        ((p.dryMass + p.propellantMass) -
          (p.dryMass + p.propellantMass) /
            Real.exp (dv / (p.specificImpulse * G0))) =
        (p.dryMass + p.propellantMass) /
          Real.exp (dv / (p.specificImpulse * G0)) := by ring
    rw [hsimp, hcancel _ (ne_of_gt hMR0), Real.log_exp]
    rw [mul_comm (p.specificImpulse * G0) _, div_mul_cancel₀]
    exact ne_of_gt hve

/-- Witness for C1 at the counterexample propulsion state with a 0.5 kg burn
and a 0.5 m/s Δv request (the capacity bound is `ln 2 > 0.5`). -/
theorem rocket_roundTrip_instance :
    ((0:ℝ) < 1/2 ∧ (1/2:ℝ) < cexPropulsion.propellantMass) ∧
    (calculateDeltaV cexPropulsion (1/2)).map
      (calculatePropellantRequired cexPropulsion) = some (1/2) ∧
    calculateDeltaV cexPropulsion
      (calculatePropellantRequired cexPropulsion (1/2)) = some (1/2) := by
  have h := rocket_roundTrip cexPropulsion (by norm_num [cexPropulsion])
    (by norm_num [cexPropulsion]) (by norm_num [cexPropulsion])
  have hcap : (1/2:ℝ) < cexPropulsion.specificImpulse * G0 *
      Real.log ((cexPropulsion.dryMass + cexPropulsion.propellantMass) /
        cexPropulsion.dryMass) := by
    have hve : cexPropulsion.specificImpulse * G0 = 1 := by
      norm_num [cexPropulsion, G0]
    have hsq : Real.exp (1/2) * Real.exp (1/2) = Real.exp 1 := by
      rw [← Real.exp_add]
      norm_num
    have he4 : Real.exp 1 < 4 :=
      lt_trans Real.exp_one_lt_d9 (by norm_num)
    have hhalf : Real.exp (1/2) < 2 := by
      nlinarith [Real.exp_pos (1/2)]
    have hlog : (1/2:ℝ) < Real.log 2 := by
      rw [Real.lt_log_iff_exp_lt (by norm_num : (0:ℝ) < 2)]
      exact hhalf
    rw [hve, one_mul,
      show (cexPropulsion.dryMass + cexPropulsion.propellantMass) /
        cexPropulsion.dryMass = (2:ℝ) from by norm_num [cexPropulsion]]
    exact hlog
  exact ⟨⟨by norm_num, by norm_num [cexPropulsion]⟩,
    h.1 (1/2) (by norm_num) (by norm_num [cexPropulsion]),
    h.2 (1/2) (by norm_num) hcap⟩

/-- Unfolding one iteration of the simulation loop. -/
lemma simRun_succ (config : SatelliteConfig) (env : ThermalEnv)
    (startMs ts : ℚ) (n : ℕ) :
    simRun config env startMs ts (n + 1) =
      simStep config env startMs ts (simRun config env startMs ts n) n := by
  unfold simRun
  rw [List.range_succ, List.foldl_append]
  rfl

/-- The new state of one loop iteration: temperature extremes only widen. -/
lemma simStep_minTemp (config : SatelliteConfig) (env : ThermalEnv)
    (startMs ts : ℚ) (s : SimState) (i : ℕ) :
    (simStep config env startMs ts s i).minTemp ≤ s.minTemp ∧
    s.peakTemp ≤ (simStep config env startMs ts s i).peakTemp := by
  unfold simStep
  dsimp only
  exact ⟨min_le_left _ _, le_max_left _ _⟩

/-- After `n` iterations the running extremes still bracket the fixed 293 K
starting temperature. -/
lemma simRun_temp_bounds (config : SatelliteConfig) (env : ThermalEnv)
    (startMs ts : ℚ) (n : ℕ) :
    (simRun config env startMs ts n).minTemp ≤ 293 ∧
    293 ≤ (simRun config env startMs ts n).peakTemp := by
  induction n with
  | zero => exact ⟨le_refl _, le_refl _⟩
  | succ n ih =>
    rw [simRun_succ]
    have h := simStep_minTemp config env startMs ts
      (simRun config env startMs ts n) n
    exact ⟨le_trans h.1 ih.1, le_trans ih.2 h.2⟩

/-- Each loop iteration appends exactly one timeline sample. -/
lemma simRun_timeline_length (config : SatelliteConfig) (env : ThermalEnv)
    (startMs ts : ℚ) (n : ℕ) :
    (simRun config env startMs ts n).timeline.length = n := by
  induction n with
  | zero => rfl
  | succ n ih =>
    rw [simRun_succ]
    unfold simStep
    dsimp only
    rw [List.length_append, ih]
    rfl

/-- C10: the thermal integration always starts from the fixed literal 293 K
(the initial state is input-independent), so every prediction satisfies
`minTemperature ≤ 293 ≤ peakTemperature`. -/
theorem thermal_initialTemp_bounds (config : SatelliteConfig)
    (env : ThermalEnv) (startMs duration ts : ℚ) :
    simInit.temperature = 293 ∧
    (runThermalSimulation config env startMs duration ts).minTemperature ≤ 293 ∧
    293 ≤ (runThermalSimulation config env startMs duration ts).peakTemperature := by
  refine ⟨rfl, ?_, ?_⟩
  · exact (simRun_temp_bounds config env startMs ts _).1
  · exact (simRun_temp_bounds config env startMs ts _).2

/-- C2 (amended): `runThermalSimulation` performs no input validation at
all — for every configuration, including zero or negative mass, surface area
or specific heat, it runs the full integration loop and returns a
`ThermalPrediction` with one timeline sample per step, rather than signalling
an invalid-configuration error. -/
theorem thermal_always_simulates (config : SatelliteConfig) (env : ThermalEnv)
    (startMs duration ts : ℚ) :
    (runThermalSimulation config env startMs duration ts).thermalTimeline.length =
      (⌊duration / ts⌋ + 1).toNat :=
  simRun_timeline_length config env startMs ts _

/-- Every risk kept by the all-pairs scan has probability above 0.01. -/
lemma pairRisks_prob (sats : List SatellitePosition) :
    ∀ r ∈ pairRisks sats, (0.01:ℚ) < r.probability := by
  induction sats with
  | nil =>
    intro r hr
    simp [pairRisks] at hr
  | cons s rest ih =>
    intro r hr
    rw [pairRisks] at hr
    rcases List.mem_append.mp hr with h | h
    · rw [List.mem_filterMap] at h
      obtain ⟨s2, hs2, hf⟩ := h
      dsimp only at hf
      split at hf
      · rename_i hc
        cases hf
        exact hc
      · exact absurd hf (by simp)
    · exact ih r h

/-- C5: `detectCollisionRisks` returns the empty list for fewer than two
objects, its output is sorted by probability descending, its elements are
exactly (up to the sort permutation) the scanned pairs, all retained
probabilities exceed 0.01, and two objects at identical positions yield the
single probability 0.85 with no division error. -/
theorem detectCollisionRisks_spec :
    (∀ sats : List SatellitePosition, sats.length < 2 →
      detectCollisionRisks sats = []) ∧
    (∀ sats : List SatellitePosition, (detectCollisionRisks sats).Pairwise
      fun a b => b.probability ≤ a.probability) ∧
    (∀ sats : List SatellitePosition,
      (detectCollisionRisks sats).Perm (pairRisks sats)) ∧
    (∀ sats : List SatellitePosition, ∀ r ∈ detectCollisionRisks sats,
      (0.01:ℚ) < r.probability) ∧
    (∀ s1 s2 : SatellitePosition, s1.position = s2.position →
      (detectCollisionRisks [s1, s2]).map (fun r => r.probability) = [0.85]) := by
  have htrans : ∀ a b c : CollisionRisk,
      decide (b.probability ≤ a.probability) = true →
      decide (c.probability ≤ b.probability) = true →
      decide (c.probability ≤ a.probability) = true := by
    intro a b c hab hbc
    simp only [decide_eq_true_eq] at hab hbc ⊢
    linarith
  have htotal : ∀ a b : CollisionRisk,
      (decide (b.probability ≤ a.probability) ||
        decide (a.probability ≤ b.probability)) = true := by
    intro a b
    rcases le_total b.probability a.probability with h | h <;> simp [h]
  refine ⟨?_, ?_, ?_, ?_, ?_⟩
  · intro sats h
    match sats with
    | [] => simp [detectCollisionRisks, pairRisks]
    | [s] => simp [detectCollisionRisks, pairRisks]
    | a :: b :: t => exact absurd h (by simp)
  · intro sats
    have h := List.sorted_mergeSort htrans htotal (pairRisks sats)
    exact h.imp fun hab => of_decide_eq_true hab
  · intro sats
    exact List.mergeSort_perm (pairRisks sats) _
  · intro sats r hr
    rw [detectCollisionRisks, List.mem_mergeSort] at hr
    exact pairRisks_prob sats r hr
  · intro s1 s2 hpos
    have hd : distanceSq s1.position s2.position = 0 := by
      rw [hpos]
      unfold distanceSq
      dsimp only
      ring
    have hprob : collisionProbabilityOfSq (distanceSq s1.position s2.position) =
        0.85 := by
      rw [hd]
      unfold collisionProbabilityOfSq
      norm_num
    rw [detectCollisionRisks]
    simp only [pairRisks, List.filterMap, calculateCollisionProbability]
    rw [hprob]
    norm_num

/-- Witness for C5: a single-object constellation yields no risks, and two
objects at the same position yield the single probability 0.85. -/
theorem detectCollisionRisks_spec_instance :
    ([({ name := "SAT-A", position := (1, 0, 0),
         velocity := (0, 0, 0) } : SatellitePosition)].length < 2) ∧
    detectCollisionRisks
      [({ name := "SAT-A", position := (1, 0, 0),
           velocity := (0, 0, 0) } : SatellitePosition)] = [] ∧
    (detectCollisionRisks
      [({ name := "SAT-B", position := (1, 0, 0),
           velocity := (0, 0, 0) } : SatellitePosition),
       ({ name := "SAT-C", position := (1, 0, 0),
           velocity := (7, 0, 0) } : SatellitePosition)]).map
      (fun r => r.probability) = [0.85] :=
  ⟨by norm_num, detectCollisionRisks_spec.1 _ (by norm_num),
   detectCollisionRisks_spec.2.2.2.2 _ _ rfl⟩

/-- Step times are strictly increasing when the time step is positive. -/
lemma timeAt_lt_succ (startMs ts : ℚ) (hts : 0 < ts) (i : ℕ) :
    timeAt startMs ts i < timeAt startMs ts (i + 1) := by
  unfold timeAt
  push_cast
  nlinarith [hts]

/-- The opening chain either leaves the open-window state unchanged or opens
a fresh window at the current time. -/
lemma updateOpenWindow_eq_or (w e hb : Bool) (c t : ℚ)
    (ow : Option (ℚ × WindowType)) :
    updateOpenWindow w e hb c t ow = ow ∨
    ∃ ty, updateOpenWindow w e hb c t ow = some (t, ty) := by
  unfold updateOpenWindow
  dsimp only
  split_ifs <;> first | exact Or.inl rfl | exact Or.inr ⟨_, rfl⟩

/-- One loop iteration preserves the simulation invariant. -/
lemma simInv_step (config : SatelliteConfig) (env : ThermalEnv)
    (startMs ts : ℚ) (hts : 0 < ts) (i : ℕ) (s : SimState)
    (h : SimInv config startMs ts i s) :
    SimInv config startMs ts (i + 1) (simStep config env startMs ts s i) := by
  obtain ⟨⟨hmin, hpeak⟩, hlen, htlpeak, htltime, hwin, hpair, hopen, hsev, hwtl⟩ := h
  have hstep : timeAt startMs ts i < timeAt startMs ts (i + 1) :=
    timeAt_lt_succ startMs ts hts i
  unfold simStep
  dsimp only
  set T := propagateTemperature config s.temperature
    (calculateHeatFluxes config env.viewFactor (env.eclipse i) s.temperature).netFlux
    ts with hT
  have hpeak' : (293:ℚ) ≤ max s.peakTemp T := le_trans hpeak (le_max_left _ _)
  have hmin' : min s.minTemp T ≤ (293:ℚ) := le_trans (min_le_left _ _) hmin
  rcases how : updateOpenWindow s.wasEclipse (env.eclipse i) env.highBeta
      (if env.eclipse i then 0 else s.consecutiveSunExposure + ts)
      (timeAt startMs ts i) s.openWindow with _ | ⟨st, ty⟩
  · -- no window open after the opening chain
    simp only [closeWindow]
    unfold SimInv
    dsimp only
    refine ⟨⟨hmin', hpeak'⟩, by simp [hlen], ?_, ?_, ?_, hpair, ?_, hsev, ?_⟩
    · intro e he
      rcases List.mem_append.mp he with he' | he'
      · exact le_trans (htlpeak e he') (le_max_left _ _)
      · rw [List.mem_singleton] at he'
        subst he'
        exact le_max_right _ _
    · intro e he
      rcases List.mem_append.mp he with he' | he'
      · exact lt_trans (htltime e he') hstep
      · rw [List.mem_singleton] at he'
        subst he'
        exact hstep
    · intro w hw
      exact ⟨(hwin w hw).1, lt_trans (hwin w hw).2 hstep⟩
    · intro st ty hco
      exact Option.noConfusion hco
    · intro w hw e he hle
      rcases List.mem_append.mp he with he' | he'
      · exact hwtl w hw e he' hle
      · rw [List.mem_singleton] at he'
        subst he'
        exact absurd hle (not_le.mpr ((hwin w hw).2))
  · -- a window (st, ty) is open after the opening chain
    have hst : (∀ w ∈ s.riskWindows, w.endTime < st) ∧
        st ≤ timeAt startMs ts i := by
      rcases updateOpenWindow_eq_or s.wasEclipse (env.eclipse i) env.highBeta
          (if env.eclipse i then 0 else s.consecutiveSunExposure + ts)
          (timeAt startMs ts i) s.openWindow with heq | ⟨ty2, heq⟩
      · rw [how] at heq
        have h2 := hopen st ty heq.symm
        exact ⟨h2.1, le_of_lt h2.2⟩
      · rw [how] at heq
        simp only [Option.some.injEq, Prod.mk.injEq] at heq
        obtain ⟨h3, -⟩ := heq
        subst h3
        exact ⟨fun w hw => (hwin w hw).2, le_refl _⟩
    by_cases hrl : (if config.maxTemp - T < 10 ∨ T - config.minTemp < 10 then
        RiskLevel.critical
      else if config.maxTemp - T < 30 ∨ T - config.minTemp < 30 then
        RiskLevel.warning
      else RiskLevel.nominal) = RiskLevel.nominal
    · -- the window closes at this step
      simp only [closeWindow, if_pos hrl]
      unfold SimInv
      dsimp only
      refine ⟨⟨hmin', hpeak'⟩, by simp [hlen], ?_, ?_, ?_, ?_, ?_, ?_, ?_⟩
      · intro e he
        rcases List.mem_append.mp he with he' | he'
        · exact le_trans (htlpeak e he') (le_max_left _ _)
        · rw [List.mem_singleton] at he'
          subst he'
          exact le_max_right _ _
      · intro e he
        rcases List.mem_append.mp he with he' | he'
        · exact lt_trans (htltime e he') hstep
        · rw [List.mem_singleton] at he'
          subst he'
          exact hstep
      · intro w hw
        rcases List.mem_append.mp hw with hw' | hw'
        · exact ⟨(hwin w hw').1, lt_trans (hwin w hw').2 hstep⟩
        · rw [List.mem_singleton] at hw'
          subst hw'
          exact ⟨hst.2, hstep⟩
      · rw [List.pairwise_append]
        refine ⟨hpair, by simp, ?_⟩
        intro a ha b hb
        rw [List.mem_singleton] at hb
        subst hb
        exact hst.1 a ha
      · intro st' ty' hco
        exact Option.noConfusion hco
      · intro w hw
        rcases List.mem_append.mp hw with hw' | hw'
        · exact hsev w hw'
        · rw [List.mem_singleton] at hw'
          subst hw'
          dsimp only
          split_ifs with hc
          · exact iff_of_true rfl hc
          · exact iff_of_false (by simp) hc
      · intro w hw e he hle
        rcases List.mem_append.mp hw with hw' | hw'
        · rcases List.mem_append.mp he with he' | he'
          · exact hwtl w hw' e he' hle
          · rw [List.mem_singleton] at he'
            subst he'
            exact absurd hle (not_le.mpr ((hwin w hw').2))
        · rw [List.mem_singleton] at hw'
          subst hw'
          rcases List.mem_append.mp he with he' | he'
          · exact le_trans (htlpeak e he') (le_max_left _ _)
          · rw [List.mem_singleton] at he'
            subst he'
            exact le_max_right _ _
    · -- the window stays open
      simp only [closeWindow, if_neg hrl]
      unfold SimInv
      dsimp only
      refine ⟨⟨hmin', hpeak'⟩, by simp [hlen], ?_, ?_, ?_, hpair, ?_, hsev, ?_⟩
      · intro e he
        rcases List.mem_append.mp he with he' | he'
        · exact le_trans (htlpeak e he') (le_max_left _ _)
        · rw [List.mem_singleton] at he'
          subst he'
          exact le_max_right _ _
      · intro e he
        rcases List.mem_append.mp he with he' | he'
        · exact lt_trans (htltime e he') hstep
        · rw [List.mem_singleton] at he'
          subst he'
          exact hstep
      · intro w hw
        exact ⟨(hwin w hw).1, lt_trans (hwin w hw).2 hstep⟩
      · intro st' ty' hco
        simp only [Option.some.injEq, Prod.mk.injEq] at hco
        obtain ⟨h5, -⟩ := hco
        subst h5
        exact ⟨hst.1, lt_of_le_of_lt hst.2 hstep⟩
      · intro w hw e he hle
        rcases List.mem_append.mp he with he' | he'
        · exact hwtl w hw e he' hle
        · rw [List.mem_singleton] at he'
          subst he'
          exact absurd hle (not_le.mpr ((hwin w hw).2))

/-- The simulation invariant holds after every number of iterations. -/
lemma simRun_inv (config : SatelliteConfig) (env : ThermalEnv)
    (startMs ts : ℚ) (hts : 0 < ts) (n : ℕ) :
    SimInv config startMs ts n (simRun config env startMs ts n) := by
  induction n with
  | zero =>
    refine ⟨⟨?_, ?_⟩, ?_, ?_, ?_, ?_, ?_, ?_, ?_⟩ <;>
      simp [simRun, simInit, SimInv]
  | succ n ih =>
    rw [simRun_succ]
    exact simInv_step config env startMs ts hts n _ ih

/-- C9: the risk windows of a thermal prediction are well-formed and
chronologically disjoint — every window ends no earlier than it starts, and
of any two windows one ends strictly before the other starts, so at most one
window is open at any timestamp. -/
theorem riskWindows_disjoint (config : SatelliteConfig) (env : ThermalEnv)
    (startMs duration ts : ℚ) (hts : 0 < ts) :
    (∀ w ∈ (runThermalSimulation config env startMs duration ts).riskWindows,
      w.startTime ≤ w.endTime) ∧
    (runThermalSimulation config env startMs duration ts).riskWindows.Pairwise
      (fun a b => a.endTime < b.startTime) := by
  have h := simRun_inv config env startMs ts hts (⌊duration / ts⌋ + 1).toNat
  exact ⟨fun w hw => (h.2.2.2.2.1 w hw).1, h.2.2.2.2.2.1⟩

/-- Witness for C9 at the default configuration, a quiet orbit environment
and a 60 s step over 120 s. -/
theorem riskWindows_disjoint_instance :
    (0:ℚ) < 60 ∧
    (runThermalSimulation DEFAULT_SATELLITE_CONFIG quietEnv 0 120 60).riskWindows.Pairwise
      (fun a b => a.endTime < b.startTime) :=
  ⟨by norm_num,
   (riskWindows_disjoint DEFAULT_SATELLITE_CONFIG quietEnv 0 120 60
     (by norm_num)).2⟩

/-- C3 (amended): the `peakTemp` recorded in a closed risk window is the
running maximum temperature since the start of the simulation up to the
close of the window — in particular every timeline temperature at or before
the end of the window is bounded by it, but it may exceed the maximum inside
the window (see the counterexample) — and the severity is critical exactly
when this running peak exceeds `maxTemp - 20`. -/
theorem riskWindow_peak_severity (config : SatelliteConfig) (env : ThermalEnv)
    (startMs duration ts : ℚ) (hts : 0 < ts) :
    ∀ w ∈ (runThermalSimulation config env startMs duration ts).riskWindows,
      (w.severity = Severity.critical ↔ config.maxTemp - 20 < w.peakTemp) ∧
      (∀ e ∈ (runThermalSimulation config env startMs duration ts).thermalTimeline,
        e.time ≤ w.endTime → e.temperature ≤ w.peakTemp) := by
  have h := simRun_inv config env startMs ts hts (⌊duration / ts⌋ + 1).toNat
  exact fun w hw =>
    ⟨h.2.2.2.2.2.2.2.1 w hw, fun e he hle => h.2.2.2.2.2.2.2.2 w hw e he hle⟩

section ConcreteEvaluation

/- The rational arithmetic of Batteries is `@[irreducible]`; inside this
section it is made semireducible again so that concrete runs of the engines
can be evaluated by `decide` (pure kernel reduction, no native code). -/
attribute [local semireducible] Rat.add Rat.mul Rat.sub Rat.inv Rat.ofScientific

/-- C2 counterexample: with a zero-mass configuration (the source would
divide by `mass * specificHeat = 0` at every step), `runThermalSimulation`
still simulates and returns a numeric `ThermalPrediction` with a full
three-sample timeline — it does not reject the input or signal an error. -/
theorem thermal_no_validation_cex :
    zeroMassConfig.mass = 0 ∧
    (runThermalSimulation zeroMassConfig quietEnv 0 2 1).thermalTimeline.length = 3 := by
  constructor
  · rfl
  · decide

/-- C3 counterexample: in the concrete run over three 1 s steps, the single
risk window spans exactly the timestamp 2000 ms, where the only timeline
temperature is 15 K, yet the recorded `peakTemp` is 1015 K — the running
maximum of the whole simulation (reached before the window opened), not the
maximum reached during the window. -/
theorem riskWindow_peak_cex :
    ((runThermalSimulation cexThermalConfig cexThermalEnv 0 2 1).riskWindows.map
      fun w => (w.startTime, w.endTime, w.peakTemp)) = [(2000, 2000, 1015)] ∧
    ((runThermalSimulation cexThermalConfig cexThermalEnv 0 2 1).thermalTimeline.filter
      fun e => decide (2000 ≤ e.time) && decide (e.time ≤ 2000)).map
        (fun e => e.temperature) = [15] ∧
    (1015 : ℚ) ≠ 15 := by
  refine ⟨by decide, by decide, by decide⟩

/-- Witness for C3 at the concrete counterexample run: the amended severity
rule, instantiated at the one window that run produces. -/
theorem riskWindow_peak_severity_instance :
    (0:ℚ) < 1 ∧
    (cexWindow.severity = Severity.critical ↔
      cexThermalConfig.maxTemp - 20 < cexWindow.peakTemp) :=
  ⟨by norm_num,
   (riskWindow_peak_severity cexThermalConfig cexThermalEnv 0 2 1 (by norm_num)
     cexWindow (by decide)).1⟩

end ConcreteEvaluation

end OrbitIQ
